import Mathlib

/-!
Verification of the sshfs mount bootstrap-and-lifecycle controller
(`src/sshfs_mount/sshfs_mount.cpp`).

The remote session is modelled as a function from a command string to the
`CommandResult` it produces; every operation additionally threads the list of
commands issued so far, so that statements about which commands were (not)
issued can be made.  Exceptions are modelled with `Except Err`; a C++
`try`/`catch` becomes a `match` on the result, keeping the trace accumulated by
the failed attempt (C++ exceptions do not roll back side effects).

Helper routines that live outside this translation unit
(`mp::utils::match_line_for`, `mp::utils::split`, `mp::utils::trim_end`,
`version::Semver200_version`, `std::stoi`, `std::string::substr`) are modelled
from the specification, as indicated on each definition.
-/

set_option autoImplicit false

/-- Result of executing one remote command: captured standard output, captured
standard error, and the exit status (`ssh_process.read_std_output`,
`read_std_error`, `exit_code`). -/
structure CommandResult where
  stdout : String
  stderr : String
  exit_code : Int
deriving DecidableEq

/-- A remote session, modelled as the map from a command string to the result
its execution produces (`mp::SSHSession::exec`). -/
def Session : Type := String → CommandResult

/-- The errors that can abort the bootstrap: `std::runtime_error` thrown by
`run_cmd` (carrying the captured stderr text), `std::out_of_range` from
`std::string::substr`, `std::invalid_argument` from `std::stoi`, and the
dedicated `mp::SSHFSMissingError`. -/
inductive Err where
  | runtime_error (stderr : String)
  | out_of_range
  | invalid_argument
  | SSHFSMissingError
deriving DecidableEq

/-- The configuration handed to the `mp::SftpServer` constructor (the session
itself, which is moved in alongside, is kept outside this structure). -/
structure SftpServerCfg where
  source : String
  target : String
  gid_map : List (Int × Int)
  uid_map : List (Int × Int)
  default_uid : Int
  default_gid : Int
  sshfs_exec_line : String
deriving DecidableEq

/-- Observable lifecycle state of a constructed `SshfsMount`:
how many times `sftp_server->stop()` has been invoked, how many times
`sftp_thread.join()` has been invoked, whether the background thread is still
joinable, and whether it has exited. -/
structure MountState where
  signal_count : Nat
  join_count : Nat
  thread_joinable : Bool
  thread_exited : Bool
deriving DecidableEq

/-- Whitespace in the default C locale (`std::isspace`). -/
def isSpaceChar (c : Char) : Bool :=
  c = ' ' || c = '\t' || c = '\n' || c = '\x0b' || c = '\x0c' || c = '\r'

/-- Split a character list on a separator character (every occurrence). -/
def splitOnChar (sep : Char) : List Char → List (List Char)
  | [] => [[]]
  | c :: cs =>
    match splitOnChar sep cs with
    | [] => [[c]]
    | h :: t => if c = sep then [] :: h :: t else (c :: h) :: t

/-- Split a character list at the first occurrence of `sep`; the second
component is `none` when `sep` does not occur. -/
def breakAtFirst (sep : Char) : List Char → List Char × Option (List Char)
  | [] => ([], none)
  | c :: cs =>
    if c = sep then ([], some cs)
    else
      let r := breakAtFirst sep cs
      (c :: r.1, r.2)

/-- `needle` occurs as a contiguous substring of the haystack
(`std::string::find(matcher) != npos`). -/
def containsSub (needle : List Char) : List Char → Bool
  | [] => needle.isEmpty
  | c :: cs => needle.isPrefixOf (c :: cs) || containsSub needle cs

/-- Value of a decimal digit string (most significant first). -/
def natOfDigits (l : List Char) : Nat :=
  l.foldl (fun acc c => acc * 10 + (c.toNat - 48)) 0

/-- Modelled from the spec: `mp::utils::match_line_for` (not part of this
translation unit) returns the first line of the output that contains the
matcher as a substring, or the empty string when no line does ("Parse two
specific lines (by a well-known key prefix) out of the command's combined
output"). -/
def match_line_for (output : String) (matcher : String) : String :=
  match (splitOnChar '\n' output.data).find? (fun l => containsSub matcher.data l) with
  | some l => String.mk l
  | none => ""

/-- Modelled from the spec: `mp::utils::trim_end` (not part of this
translation unit) strips trailing whitespace/newline from command output. -/
def trim_end (s : String) : String :=
  String.mk ((s.data.reverse.dropWhile isSpaceChar).reverse)

/-- Modelled from the spec: `std::string::substr(pos)` returns the suffix from
`pos`, and throws `std::out_of_range` when `pos` exceeds the length (this is
how an absent `SNAP=` line makes the preferred-packaging probe fail). -/
def substr_from (s : String) (pos : Nat) : Except Err String :=
  if pos ≤ s.data.length then .ok (String.mk (s.data.drop pos)) else .error .out_of_range

/-- Modelled from the spec: `std::stoi` skips leading whitespace, accepts an
optional sign, converts the longest prefix of decimal digits (so a trailing
newline is tolerated), throws `std::invalid_argument` when there is no digit,
and `std::out_of_range` when the value does not fit in `int`. -/
def stoi (s : String) : Except Err Int :=
  let cs := s.data.dropWhile isSpaceChar
  let signed : Int × List Char :=
    match cs with
    | c :: rest => if c = '-' then (-1, rest) else if c = '+' then (1, rest) else (1, cs)
    | [] => (1, [])
  let digits := signed.2.takeWhile (fun c => c.isDigit)
  if digits.isEmpty then .error .invalid_argument
  else
    let v : Int := signed.1 * (natOfDigits digits : Nat)
    if v < -(2 ^ 31) ∨ 2 ^ 31 - 1 < v then .error .out_of_range else .ok v

/-- A parsed semantic version 2.0.0: version core, pre-release identifiers and
build metadata identifiers.  Modelled from the spec: the `semver200` library is
not part of this translation unit ("version comparison uses semantic-version
ordering, not lexical string ordering"). -/
structure Semver200_version where
  major : Nat
  minor : Nat
  patch : Nat
  prerelease : List String
  build : List String
deriving DecidableEq

/-- A character allowed in pre-release/build identifiers: `[0-9A-Za-z-]`. -/
def isIdentChar (c : Char) : Bool :=
  c.isAlpha || c.isDigit || c = '-'

/-- A nonempty all-digit identifier. -/
def isNumericId (l : List Char) : Bool :=
  !l.isEmpty && l.all (fun c => c.isDigit)

/-- A valid numeric version-core component: digits, no leading zero unless the
single digit `0`. -/
def validNum (l : List Char) : Bool :=
  isNumericId l && (l.length = 1 || l.head? ≠ some '0')

/-- A valid pre-release identifier: nonempty, `[0-9A-Za-z-]`, and numeric ones
carry no leading zero. -/
def validPreId (l : List Char) : Bool :=
  !l.isEmpty && l.all isIdentChar &&
    (if l.all (fun c => c.isDigit) then l.length = 1 || l.head? ≠ some '0' else true)

/-- A valid build-metadata identifier: nonempty, `[0-9A-Za-z-]`. -/
def validBuildId (l : List Char) : Bool :=
  !l.isEmpty && l.all isIdentChar

/-- Modelled from the spec: strict SemVer 2.0.0 parsing
(`major.minor.patch[-pre][+build]`); anything else is unparsable. -/
def parse_semver200 (s : String) : Option Semver200_version :=
  let b := breakAtFirst '+' s.data
  let p := breakAtFirst '-' b.1
  match splitOnChar '.' p.1 with
  | [ma, mi, pa] =>
    if validNum ma && validNum mi && validNum pa then
      let preIds := match p.2 with | none => [] | some l => splitOnChar '.' l
      let buildIds := match b.2 with | none => [] | some l => splitOnChar '.' l
      if preIds.all validPreId && buildIds.all validBuildId then
        some ⟨natOfDigits ma, natOfDigits mi, natOfDigits pa,
              preIds.map String.mk, buildIds.map String.mk⟩
      else none
    else none
  | _ => none

/-- Compare two character lists lexicographically by code point (ASCII sort
order on ASCII strings). -/
def strCompare : List Char → List Char → Ordering
  | [], [] => .eq
  | [], _ :: _ => .lt
  | _ :: _, [] => .gt
  | c :: cs, d :: ds =>
    match compare c.toNat d.toNat with
    | .eq => strCompare cs ds
    | o => o

/-- SemVer precedence of a single pre-release identifier pair: numeric
identifiers compare numerically and are lower than alphanumeric ones;
alphanumeric identifiers compare in ASCII sort order. -/
def semverIdCompare (a b : String) : Ordering :=
  match isNumericId a.data, isNumericId b.data with
  | true, true => compare (natOfDigits a.data) (natOfDigits b.data)
  | true, false => .lt
  | false, true => .gt
  | false, false => strCompare a.data b.data

/-- SemVer precedence of pre-release identifier lists: elementwise, a shorter
list being lower when it is a proper prefix. -/
def semverPreCompare : List String → List String → Ordering
  | [], [] => .eq
  | [], _ :: _ => .lt
  | _ :: _, [] => .gt
  | a :: as', b :: bs' =>
    match semverIdCompare a b with
    | .eq => semverPreCompare as' bs'
    | o => o

/-- Modelled from the spec: SemVer 2.0.0 precedence — compare the version
cores numerically; on a tie a pre-release version precedes the plain release,
and two pre-releases compare identifier-wise. -/
def semverCompare (a b : Semver200_version) : Ordering :=
  match compare a.major b.major with
  | .eq =>
    match compare a.minor b.minor with
    | .eq =>
      match compare a.patch b.patch with
      | .eq =>
        match a.prerelease, b.prerelease with
        | [], [] => .eq
        | [], _ :: _ => .gt
        | _ :: _, [] => .lt
        | x :: xs, y :: ys => semverPreCompare (x :: xs) (y :: ys)
      | o => o
    | o => o
  | o => o

/-- Strict "less than" on parsed semantic versions. -/
def semver_lt (a b : Semver200_version) : Bool :=
  semverCompare a b == Ordering.lt

/-- The fixed threshold version `"3.0.0"` of the legacy-flag comparison. -/
def semver_3_0_0 : Semver200_version := ⟨3, 0, 0, [], []⟩

/-- The version-gating test of the source: parse the extracted token and
compare it against `"3.0.0"`.  Modelled from the spec for the unparsable case:
"an empty or unparsable version string is treated as no legacy flag, never as
an error". -/
def semver_lt_300 (v : String) : Bool :=
  match parse_semver200 v with
  | some sv => semver_lt sv semver_3_0_0
  | none => false

/-- The marker `fuse_version_string` of the source. -/
def fuse_version_string : String := "FUSE library version"

/-- The key `ld_library_path_key` of the source. -/
def ld_library_path_key : String := "LD_LIBRARY_PATH="

/-- The key `snap_path_key` of the source. -/
def snap_path_key : String := "SNAP="

/-- Consume `marker` as a prefix of the list, returning the remainder. -/
def drop_marker : List Char → List Char → Option (List Char)
  | [], s => some s
  | _ :: _, [] => none
  | m :: ms, c :: cs => if c = m then drop_marker ms cs else none

/-- Match, at the head of the list, one occurrence of the split pattern of the
source — the marker `"FUSE library version"` followed by zero or more colons
and a space — returning what follows.  Modelled from the spec:
`mp::utils::split` (not part of this translation unit) splits on this
pattern ("split on the fuse_version_string along with 0 or more colons"). -/
def pattern_match (s : List Char) : Option (List Char) :=
  match drop_marker fuse_version_string.data s with
  | none => none
  | some r =>
    match r.dropWhile (fun c => c = ':') with
    | [] => none
    | c :: rest => if c = ' ' then some rest else none

/-- Worker of `mp_split`: scan left to right, cutting at every occurrence of
the split pattern.  The fuel argument (any value exceeding the list length)
makes the recursion structural. -/
def split_on_marker_aux : Nat → List Char → List Char → List (List Char)
  | 0, s, cur => [cur.reverse ++ s]
  | _ + 1, [], cur => [cur.reverse]
  | fuel + 1, c :: cs, cur =>
    match pattern_match (c :: cs) with
    | some rest => cur.reverse :: split_on_marker_aux fuel rest []
    | none => split_on_marker_aux fuel cs (c :: cur)

/-- Modelled from the spec: the call
`mp::utils::split(line, "FUSE library version:* ")` of the source — split the
line on every occurrence of the marker-plus-colons-plus-space pattern. -/
def mp_split (s : String) : List String :=
  (split_on_marker_aux (s.data.length + 1) s.data []).map String.mk

/-- The version token the source extracts from the banner: `tokens[1]` of the
split of the first line containing the marker (empty when absent). -/
def banner_fuse_version (version_info : String) : String :=
  (mp_split (match_line_for version_info fuse_version_string)).getD 1 ""

/-- The legacy-flag decision of `get_sshfs_exec_and_options`: a nonempty
marker line was found, the extracted token is nonempty, and it compares below
`"3.0.0"`. -/
def fuse_flag_from_banner (version_info : String) : Bool :=
  if match_line_for version_info fuse_version_string ≠ "" then
    let fuse_version := banner_fuse_version version_info
    fuse_version != "" && semver_lt_300 fuse_version
  else false

/-- The `run_cmd` helper of the source: execute the command (recorded on the
trace), throw `std::runtime_error` with the captured stderr on a non-zero exit
status, and otherwise return stdout concatenated with stderr. -/
def runCmd (session : Session) (cmd : String) (t : List String) :
    Except Err String × List String :=
  let r := session cmd
  if r.exit_code ≠ 0 then (.error (.runtime_error r.stderr), t ++ [cmd])
  else (.ok (r.stdout ++ r.stderr), t ++ [cmd])

/-- The preferred-packaging (snap) probe: the body of the first `try` block of
`get_sshfs_exec_and_options` — run `sudo multipass-sshfs.env`, pick the
`LD_LIBRARY_PATH=` and `SNAP=` lines out of its output, strip the `SNAP=` key,
and build the invocation string. -/
def snap_probe (session : Session) (t : List String) :
    Except Err String × List String :=
  match runCmd session "sudo multipass-sshfs.env" t with
  | (.error e, t1) => (.error e, t1)
  | (.ok sshfs_env, t1) =>
    let ld_library_path := match_line_for sshfs_env ld_library_path_key
    let snap_line := match_line_for sshfs_env snap_path_key
    match substr_from snap_line snap_path_key.length with
    | .error e => (.error e, t1)
    | .ok snap_path =>
      (.ok ("env " ++ ld_library_path ++ " " ++ snap_path ++ "/bin/sshfs"), t1)

/-- The fallback chain of `get_sshfs_exec_and_options`: on any failure of the
snap probe, fall back to `sudo which sshfs`; if that also fails, throw
`mp::SSHFSMissingError`. -/
def resolve_sshfs_exec (session : Session) (t : List String) :
    Except Err String × List String :=
  match snap_probe session t with
  | (.ok sshfs_exec, t1) => (.ok sshfs_exec, t1)
  | (.error _, t1) =>
    match runCmd session "sudo which sshfs" t1 with
    | (.ok sshfs_exec, t2) => (.ok sshfs_exec, t2)
    | (.error _, t2) => (.error .SSHFSMissingError, t2)

/-- `get_sshfs_exec_and_options` of the source: resolve the executable, trim
it, query its version banner with `-V`, append the three fixed options, and
append `-o nonempty` exactly when the version-gated legacy decision fires. -/
def get_sshfs_exec_and_options (session : Session) (t : List String) :
    Except Err String × List String :=
  match resolve_sshfs_exec session t with
  | (.error e, t1) => (.error e, t1)
  | (.ok sshfs_exec0, t1) =>
    let sshfs_exec := trim_end sshfs_exec0
    match runCmd session ("sudo " ++ sshfs_exec ++ " -V") t1 with
    | (.error e, t2) => (.error e, t2)
    | (.ok version_info, t2) =>
      let sshfs_exec2 := sshfs_exec ++ " -o slave -o transform_symlinks -o allow_other"
      if fuse_flag_from_banner version_info then (.ok (sshfs_exec2 ++ " -o nonempty"), t2)
      else (.ok sshfs_exec2, t2)

/-- `make_target_dir` of the source: `sudo mkdir -p "<target>"`. -/
def make_target_dir (session : Session) (target : String) (t : List String) :
    Except Err String × List String :=
  runCmd session ("sudo mkdir -p \"" ++ target ++ "\"") t

/-- `set_owner_for` of the source: query the session's user and group names,
trim them, and `sudo chown <user>:<group> "<target>"`. -/
def set_owner_for (session : Session) (target : String) (t : List String) :
    Except Err Unit × List String :=
  match runCmd session "id -nu" t with
  | (.error e, t1) => (.error e, t1)
  | (.ok vm_user, t1) =>
    match runCmd session "id -ng" t1 with
    | (.error e, t2) => (.error e, t2)
    | (.ok vm_group, t2) =>
      match runCmd session
          ("sudo chown " ++ trim_end vm_user ++ ":" ++ trim_end vm_group ++
            " \"" ++ target ++ "\"") t2 with
      | (.error e, t3) => (.error e, t3)
      | (.ok _, t3) => (.ok (), t3)

/-- `make_sftp_server` of the source: resolve the invocation line, provision
the target directory, query `id -u` and `id -g`, convert them with
`std::stoi`, and build the `SftpServer` configuration. -/
def make_sftp_server (session : Session) (source target : String)
    (gid_map uid_map : List (Int × Int)) (t : List String) :
    Except Err SftpServerCfg × List String :=
  match get_sshfs_exec_and_options session t with
  | (.error e, t1) => (.error e, t1)
  | (.ok sshfs_exec_line, t1) =>
    match make_target_dir session target t1 with
    | (.error e, t2) => (.error e, t2)
    | (.ok _, t2) =>
      match set_owner_for session target t2 with
      | (.error e, t3) => (.error e, t3)
      | (.ok _, t3) =>
        match runCmd session "id -u" t3 with
        | (.error e, t4) => (.error e, t4)
        | (.ok out_u, t4) =>
          match stoi out_u with
          | .error e => (.error e, t4)
          | .ok default_uid =>
            match runCmd session "id -g" t4 with
            | (.error e, t5) => (.error e, t5)
            | (.ok out_g, t5) =>
              match stoi out_g with
              | .error e => (.error e, t5)
              | .ok default_gid =>
                (.ok ⟨source, target, gid_map, uid_map, default_uid, default_gid,
                      sshfs_exec_line⟩, t5)

/-- The lifecycle state right after a successful construction: the dedicated
`sftp_thread` has been started (joinable, not yet exited) and neither
`sftp_server->stop()` nor `join()` has been invoked. -/
def initial_running_state : MountState :=
  ⟨0, 0, true, false⟩

/-- The `SshfsMount` constructor: the member initializer `sftp_server{...}`
runs `make_sftp_server` first; only when it succeeds is the later member
`sftp_thread{...}` initialized, spawning the background thread.  A failure
propagates before the thread member is ever constructed, so the error result
carries no `MountState`. -/
def SshfsMount_construct (session : Session) (source target : String)
    (gid_map uid_map : List (Int × Int)) (t : List String) :
    Except Err (SftpServerCfg × MountState) × List String :=
  match make_sftp_server session source target gid_map uid_map t with
  | (.ok cfg, t1) => (.ok (cfg, initial_running_state), t1)
  | (.error e, t1) => (.error e, t1)

/-- `SshfsMount::stop` of the source: unconditionally invoke
`sftp_server->stop()`, then `join()` the thread only when it is still
joinable (a join makes the thread non-joinable and guarantees it has
exited). -/
def SshfsMount_stop (st : MountState) : MountState :=
  let st1 : MountState := { st with signal_count := st.signal_count + 1 }
  if st1.thread_joinable then
    { st1 with join_count := st1.join_count + 1, thread_joinable := false,
               thread_exited := true }
  else st1

/-- `SshfsMount::~SshfsMount` of the source: the destructor body is exactly
`stop();`. -/
def SshfsMount_destructor (st : MountState) : MountState :=
  SshfsMount_stop st

deriving instance DecidableEq for Except

/-- A session whose host has the `multipass-sshfs` snap installed and reports
FUSE library version 2.9.7 (end-to-end scenario A of the spec). -/
def sessFull : Session := fun cmd =>
  if cmd = "sudo multipass-sshfs.env" then ⟨"LD_LIBRARY_PATH=/l\nSNAP=/s\n", "", 0⟩
  else if cmd = "id -u" then ⟨"1000\n", "", 0⟩
  else if cmd = "id -g" then ⟨"1000\n", "", 0⟩
  else if cmd = "id -nu" then ⟨"u\n", "", 0⟩
  else if cmd = "id -ng" then ⟨"u\n", "", 0⟩
  else if cmd = "sudo env LD_LIBRARY_PATH=/l /s/bin/sshfs -V" then
    ⟨"FUSE library version: 2.9.7\n", "", 0⟩
  else ⟨"", "", 0⟩

/-- A session where neither the snap package nor a distro `sshfs` exists
(end-to-end scenario D of the spec). -/
def sessMissing : Session := fun cmd =>
  if cmd = "sudo multipass-sshfs.env" then ⟨"", "e\n", 127⟩
  else if cmd = "sudo which sshfs" then ⟨"", "", 1⟩
  else ⟨"", "", 0⟩

/-- A session without the snap package whose distro `sshfs` reports FUSE
library version 2.9.7. -/
def sessFuse : Session := fun cmd =>
  if cmd = "sudo multipass-sshfs.env" then ⟨"", "e", 1⟩
  else if cmd = "sudo which sshfs" then ⟨"/u/s\n", "", 0⟩
  else if cmd = "sudo /u/s -V" then ⟨"FUSE library version: 2.9.7\n", "", 0⟩
  else ⟨"", "", 0⟩

/-- A session whose `id -u` command succeeds but also writes a diagnostic on
standard error. -/
def sessWarn : Session := fun cmd =>
  if cmd = "id -u" then ⟨"1000\n", "w\n", 0⟩
  else ⟨"", "", 0⟩

/-- A session without the snap package whose distro `sshfs` prints no banner
and whose identifier queries return `7`. -/
def sessMin : Session := fun cmd =>
  if cmd = "sudo multipass-sshfs.env" then ⟨"", "e", 1⟩
  else if cmd = "sudo which sshfs" then ⟨"/u/s\n", "", 0⟩
  else if cmd = "sudo /u/s -V" then ⟨"x\n", "", 0⟩
  else if cmd = "id -u" then ⟨"7\n", "", 0⟩
  else if cmd = "id -g" then ⟨"7\n", "", 0⟩
  else ⟨"u\n", "", 0⟩

theorem runCmd_trace (s : Session) (cmd : String) (t : List String) :
    (runCmd s cmd t).2 = t ++ [cmd] := by
  simp only [runCmd]
  split <;> rfl

theorem runCmd_ok (s : Session) (cmd : String) (t : List String)
    (h : (s cmd).exit_code = 0) :
    runCmd s cmd t = (.ok ((s cmd).stdout ++ (s cmd).stderr), t ++ [cmd]) := by
  simp [runCmd, h]

theorem runCmd_err (s : Session) (cmd : String) (t : List String)
    (h : (s cmd).exit_code ≠ 0) :
    runCmd s cmd t = (.error (.runtime_error (s cmd).stderr), t ++ [cmd]) := by
  simp [runCmd, h]

theorem runCmd_ok_inv (s : Session) (cmd : String) (t : List String)
    (out : String) (t' : List String) (h : runCmd s cmd t = (.ok out, t')) :
    out = (s cmd).stdout ++ (s cmd).stderr := by
  unfold runCmd at h
  by_cases hx : (s cmd).exit_code ≠ 0
  · simp [hx] at h
  · simp [hx] at h
    exact h.1.symm

theorem snap_probe_trace (s : Session) (t : List String) :
    (snap_probe s t).2 = t ++ ["sudo multipass-sshfs.env"] := by
  unfold snap_probe
  rcases h : runCmd s "sudo multipass-sshfs.env" t with ⟨r, t1⟩
  have ht : t1 = t ++ ["sudo multipass-sshfs.env"] := by
    have h2 := congrArg Prod.snd h
    rw [runCmd_trace] at h2
    exact h2.symm
  cases r with
  | error e => simpa using ht
  | ok out =>
    cases hsub : substr_from (match_line_for out snap_path_key) snap_path_key.length with
    | error e => simpa [hsub] using ht
    | ok sp => simpa [hsub] using ht

/-- Claim C7 counterexample: calling `stop()` twice on a freshly constructed
controller does not perform the shutdown signal at most once in total — the
second call invokes `sftp_server->stop()` again, so the signal count is 2. -/
theorem stop_twice_signals_twice_cex :
    ¬ ((SshfsMount_stop (SshfsMount_stop initial_running_state)).signal_count ≤ 1) := by
  decide

/-- Claim C7 (amended): calling `stop()` twice in succession performs the
thread join at most once in total — the first call joins and leaves the thread
non-joinable, so the second call joins nothing — but the shutdown signal
(`sftp_server->stop()`) is issued again on every call. -/
theorem stop_twice_joins_once (st : MountState) (h : st.thread_joinable = true) :
    (SshfsMount_stop (SshfsMount_stop st)).join_count = st.join_count + 1 ∧
    (SshfsMount_stop (SshfsMount_stop st)).signal_count = st.signal_count + 2 ∧
    (SshfsMount_stop st).thread_joinable = false := by
  simp [SshfsMount_stop, h]

/-- Claim C7 witness at the freshly constructed state. -/
theorem stop_twice_joins_once_witness :
    (SshfsMount_stop (SshfsMount_stop initial_running_state)).join_count = 1 ∧
    (SshfsMount_stop (SshfsMount_stop initial_running_state)).signal_count = 2 ∧
    (SshfsMount_stop initial_running_state).thread_joinable = false :=
  stop_twice_joins_once initial_running_state rfl

/-- Claim C9: destroying the controller without an explicit `stop()` call
still runs the signal-then-join shutdown — the destructor body is `stop()`, so
on a state with a joinable background thread it signals once, joins once, and
the thread has exited before the destructor returns. -/
theorem destructor_joins_thread (st : MountState) (h : st.thread_joinable = true) :
    (SshfsMount_destructor st).thread_exited = true ∧
    (SshfsMount_destructor st).join_count = st.join_count + 1 ∧
    (SshfsMount_destructor st).signal_count = st.signal_count + 1 ∧
    (SshfsMount_destructor st).thread_joinable = false := by
  simp [SshfsMount_destructor, SshfsMount_stop, h]

/-- Claim C9 witness at the freshly constructed state. -/
theorem destructor_joins_thread_witness :
    (SshfsMount_destructor initial_running_state).thread_exited = true ∧
    (SshfsMount_destructor initial_running_state).join_count = 1 ∧
    (SshfsMount_destructor initial_running_state).signal_count = 1 ∧
    (SshfsMount_destructor initial_running_state).thread_joinable = false :=
  destructor_joins_thread initial_running_state rfl

/-- Claim C8: construction is atomic — when `make_sftp_server` fails, the
constructor propagates exactly that error and the result carries no lifecycle
state (the `sftp_thread` member is initialized only after `sftp_server`, so no
background thread is spawned); when it succeeds, the constructor returns the
configuration together with the running state, whose background thread has
been started. -/
theorem construction_atomic (s : Session) (source target : String)
    (g u : List (Int × Int)) (t : List String) :
    (∀ e t1, make_sftp_server s source target g u t = (.error e, t1) →
      SshfsMount_construct s source target g u t = (.error e, t1)) ∧
    (∀ cfg t1, make_sftp_server s source target g u t = (.ok cfg, t1) →
      SshfsMount_construct s source target g u t = (.ok (cfg, initial_running_state), t1) ∧
      initial_running_state.thread_joinable = true ∧
      initial_running_state.thread_exited = false) := by
  constructor
  · intro e t1 h
    simp [SshfsMount_construct, h]
  · intro cfg t1 h
    simp [SshfsMount_construct, h, initial_running_state]

theorem resolve_of_snap_err (s : Session) (t : List String) (e1 : Err)
    (h1 : (snap_probe s t).1 = Except.error e1) :
    resolve_sshfs_exec s t =
      (if (s "sudo which sshfs").exit_code ≠ 0 then
        (.error .SSHFSMissingError,
          t ++ ["sudo multipass-sshfs.env", "sudo which sshfs"])
      else
        (.ok ((s "sudo which sshfs").stdout ++ (s "sudo which sshfs").stderr),
          t ++ ["sudo multipass-sshfs.env", "sudo which sshfs"])) := by
  have hsp : snap_probe s t = (Except.error e1, t ++ ["sudo multipass-sshfs.env"]) := by
    have ht := snap_probe_trace s t
    rcases hp : snap_probe s t with ⟨r, t1⟩
    rw [hp] at h1 ht
    simp only at h1 ht
    rw [h1, ht]
  unfold resolve_sshfs_exec
  rw [hsp]
  show (match runCmd s "sudo which sshfs" (t ++ ["sudo multipass-sshfs.env"]) with
    | (Except.ok sshfs_exec, t2) => (Except.ok sshfs_exec, t2)
    | (Except.error _, t2) => (Except.error Err.SSHFSMissingError, t2)) = _
  by_cases hx : (s "sudo which sshfs").exit_code ≠ 0
  · rw [runCmd_err s _ _ hx]
    simp [hx, List.append_assoc]
  · push_neg at hx
    rw [runCmd_ok s _ _ hx]
    simp [hx, List.append_assoc]

/-- Claim C3: whenever the preferred-packaging (snap) probe fails, the system
probe `sudo which sshfs` is attempted exactly once (the resolver's command
trace extends the snap probe's by exactly that one command); when it also
fails, the whole `make_sftp_server` setup stops with `SSHFSMissingError`, and
its complete command trace shows that no `mkdir`/`chown` provisioning command
was ever issued. -/
theorem probe_fallback_once_no_provision (s : Session) (source target : String)
    (g u : List (Int × Int)) (t : List String) (e1 : Err)
    (h1 : (snap_probe s t).1 = Except.error e1) :
    (resolve_sshfs_exec s t).2 =
      t ++ ["sudo multipass-sshfs.env", "sudo which sshfs"] ∧
    ((s "sudo which sshfs").exit_code ≠ 0 →
      make_sftp_server s source target g u t =
        (.error .SSHFSMissingError,
          t ++ ["sudo multipass-sshfs.env", "sudo which sshfs"])) := by
  have hres := resolve_of_snap_err s t e1 h1
  constructor
  · rw [hres]
    split <;> rfl
  · intro hx
    rw [if_pos hx] at hres
    simp [make_sftp_server, get_sshfs_exec_and_options, hres]

/-- Claim C3 witness: scenario D, where both probes fail. -/
theorem probe_fallback_once_no_provision_witness :
    (resolve_sshfs_exec sessMissing []).2 =
      ["sudo multipass-sshfs.env", "sudo which sshfs"] ∧
    ((sessMissing "sudo which sshfs").exit_code ≠ 0 →
      make_sftp_server sessMissing "/src" "/tgt" [] [] [] =
        (.error .SSHFSMissingError,
          ["sudo multipass-sshfs.env", "sudo which sshfs"])) :=
  probe_fallback_once_no_provision sessMissing "/src" "/tgt" [] [] []
    (.runtime_error "e\n") (by rfl)

/-- Claim C4: provisioning queries the session's effective user and group
names with `id -nu` / `id -ng`, strips trailing whitespace from each captured
output, and the `chown` command it issues uses exactly those trimmed names in
the form `user:group`. -/
theorem chown_uses_trimmed_user_group (s : Session) (target : String)
    (t : List String)
    (h1 : (s "id -nu").exit_code = 0) (h2 : (s "id -ng").exit_code = 0) :
    (set_owner_for s target t).2 =
      t ++ ["id -nu", "id -ng",
        "sudo chown " ++ trim_end ((s "id -nu").stdout ++ (s "id -nu").stderr) ++
          ":" ++ trim_end ((s "id -ng").stdout ++ (s "id -ng").stderr) ++
          " \"" ++ target ++ "\""] := by
  unfold set_owner_for
  rw [runCmd_ok s _ _ h1]
  simp only
  rw [runCmd_ok s _ _ h2]
  simp only
  rcases hc : runCmd s
      ("sudo chown " ++ trim_end ((s "id -nu").stdout ++ (s "id -nu").stderr) ++
        ":" ++ trim_end ((s "id -ng").stdout ++ (s "id -ng").stderr) ++
        " \"" ++ target ++ "\"") ((t ++ ["id -nu"]) ++ ["id -ng"]) with ⟨r, t3⟩
  have ht := congrArg Prod.snd hc
  rw [runCmd_trace] at ht
  cases r <;> (dsimp only at ht; rw [← ht]; simp)

/-- Claim C4 witness: scenario A session, whose `id` outputs carry a trailing
newline that the chown command does not. -/
theorem chown_uses_trimmed_user_group_witness :
    (set_owner_for sessFull "/m" []).2 =
      ["id -nu", "id -ng", "sudo chown u:u \"/m\""] :=
  (chown_uses_trimmed_user_group sessFull "/m" []
    (by rfl) (by rfl)).trans (by rfl)

/-- Claim C5 counterexample: the command runner has no stdout-only mode — on a
successful `id -u` whose process also wrote to standard error, the string the
identifier query goes on to parse is stdout concatenated with stderr, not
stdout alone, so stderr text does appear in it. -/
theorem id_query_not_stdout_only_cex :
    (runCmd sessWarn "id -u" []).1 =
      .ok ((sessWarn "id -u").stdout ++ (sessWarn "id -u").stderr) ∧
    (sessWarn "id -u").stderr = "w\n" ∧
    (runCmd sessWarn "id -u" []).1 ≠ .ok (sessWarn "id -u").stdout := by
  decide

/-- Claim C5 (amended): the command runner offers a single output-combination
mode — stdout concatenated with stderr — and every query, the identifier
queries included, receives that concatenation (stderr text can therefore
appear in the parsed string, after the stdout prefix). -/
theorem runCmd_single_concat_mode (s : Session) (cmd : String) (t : List String)
    (h : (s cmd).exit_code = 0) :
    runCmd s cmd t = (.ok ((s cmd).stdout ++ (s cmd).stderr), t ++ [cmd]) :=
  runCmd_ok s cmd t h

/-- Claim C5 witness: the `id -u` identifier query on a session with warning
text on stderr. -/
theorem runCmd_single_concat_mode_witness :
    runCmd sessWarn "id -u" [] = (.ok "1000\nw\n", ["id -u"]) :=
  (runCmd_single_concat_mode sessWarn "id -u" [] (by rfl)).trans (by rfl)

/-- Claim C10: when setup succeeds, the default numeric user and group ids
passed to the bridge server are exactly the `std::stoi` values of the captured
outputs of `id -u` and `id -g` (stoi takes the integer prefix, so a trailing
newline is tolerated); conversely, when that captured output has no parsable
integer prefix, `stoi` has no value, so `make_sftp_server` cannot have
succeeded — the error propagates instead of any default being substituted. -/
theorem default_ids_from_stoi (s : Session) (source target : String)
    (g u : List (Int × Int)) (t : List String) (cfg : SftpServerCfg)
    (h : (make_sftp_server s source target g u t).1 = .ok cfg) :
    stoi ((s "id -u").stdout ++ (s "id -u").stderr) = .ok cfg.default_uid ∧
    stoi ((s "id -g").stdout ++ (s "id -g").stderr) = .ok cfg.default_gid := by
  unfold make_sftp_server at h
  rcases hg : get_sshfs_exec_and_options s t with ⟨rg, t1⟩
  rw [hg] at h
  cases rg with
  | error e => exact Except.noConfusion h
  | ok line =>
  simp only at h
  rcases hd : make_target_dir s target t1 with ⟨rd, t2⟩
  rw [hd] at h
  cases rd with
  | error e => exact Except.noConfusion h
  | ok o1 =>
  simp only at h
  rcases ho : set_owner_for s target t2 with ⟨ro, t3⟩
  rw [ho] at h
  cases ro with
  | error e => exact Except.noConfusion h
  | ok o2 =>
  simp only at h
  rcases hu : runCmd s "id -u" t3 with ⟨ru, t4⟩
  rw [hu] at h
  cases ru with
  | error e => exact Except.noConfusion h
  | ok out_u =>
  simp only at h
  rcases hsu : stoi out_u with e | uid
  · rw [hsu] at h; exact Except.noConfusion h
  · rw [hsu] at h
    simp only at h
    rcases hgc : runCmd s "id -g" t4 with ⟨rg2, t5⟩
    rw [hgc] at h
    cases rg2 with
    | error e => exact Except.noConfusion h
    | ok out_g =>
    simp only at h
    rcases hsg : stoi out_g with e | gid
    · rw [hsg] at h; exact Except.noConfusion h
    · rw [hsg] at h
      simp only at h
      have hcfg : cfg = ⟨source, target, g, u, uid, gid, line⟩ := by
        cases h; rfl
      have hu' : out_u = (s "id -u").stdout ++ (s "id -u").stderr :=
        runCmd_ok_inv s "id -u" t3 out_u t4 hu
      have hg' : out_g = (s "id -g").stdout ++ (s "id -g").stderr :=
        runCmd_ok_inv s "id -g" t4 out_g t5 hgc
      rw [hcfg]
      rw [← hu', ← hg']
      exact ⟨hsu, hsg⟩

/-- Claim C10 witness: a session whose `id -u` / `id -g` outputs are `"7\n"`
(the trailing newline tolerated by `stoi`). -/
theorem default_ids_from_stoi_witness :
    stoi ((sessMin "id -u").stdout ++ (sessMin "id -u").stderr) = .ok 7 ∧
    stoi ((sessMin "id -g").stdout ++ (sessMin "id -g").stderr) = .ok 7 :=
  default_ids_from_stoi sessMin "/a" "/b" [] [] []
    ⟨"/a", "/b", [], [], 7, 7, "/u/s -o slave -o transform_symlinks -o allow_other"⟩
    (by rfl)

theorem parse_semver200_empty : parse_semver200 "" = none := rfl

theorem banner_empty_of_no_line (v : String)
    (hl : match_line_for v fuse_version_string = "") :
    banner_fuse_version v = "" := by
  unfold banner_fuse_version
  rw [hl]
  rfl

theorem flag_eq_of_parse_some (v : String) (sv : Semver200_version)
    (h : parse_semver200 (banner_fuse_version v) = some sv) :
    fuse_flag_from_banner v = semver_lt sv semver_3_0_0 := by
  have hne : banner_fuse_version v ≠ "" := by
    intro he
    rw [he, parse_semver200_empty] at h
    exact Option.noConfusion h
  unfold fuse_flag_from_banner
  by_cases hl : match_line_for v fuse_version_string = ""
  · exact absurd (banner_empty_of_no_line v hl) hne
  · rw [if_pos hl]
    show (banner_fuse_version v != "" && semver_lt_300 (banner_fuse_version v)) =
      semver_lt sv semver_3_0_0
    have hb : (banner_fuse_version v != "") = true := by
      simp [bne_iff_ne, hne]
    rw [hb, Bool.true_and]
    unfold semver_lt_300
    rw [h]

theorem get_ok_reduce (s : Session) (t t1 : List String) (e : String)
    (h1 : resolve_sshfs_exec s t = (.ok e, t1))
    (h2 : (s ("sudo " ++ trim_end e ++ " -V")).exit_code = 0) :
    get_sshfs_exec_and_options s t =
      (if fuse_flag_from_banner
          ((s ("sudo " ++ trim_end e ++ " -V")).stdout ++
            (s ("sudo " ++ trim_end e ++ " -V")).stderr) then
        (.ok (trim_end e ++ " -o slave -o transform_symlinks -o allow_other" ++
          " -o nonempty"), t1 ++ ["sudo " ++ trim_end e ++ " -V"])
      else
        (.ok (trim_end e ++ " -o slave -o transform_symlinks -o allow_other"),
          t1 ++ ["sudo " ++ trim_end e ++ " -V"])) := by
  unfold get_sshfs_exec_and_options
  rw [h1]
  show (match runCmd s ("sudo " ++ trim_end e ++ " -V") t1 with
    | (Except.error e2, t2) => (Except.error e2, t2)
    | (Except.ok version_info, t2) =>
      if fuse_flag_from_banner version_info then
        (Except.ok (trim_end e ++ " -o slave -o transform_symlinks -o allow_other" ++
          " -o nonempty"), t2)
      else
        (Except.ok (trim_end e ++ " -o slave -o transform_symlinks -o allow_other"),
          t2)) = _
  rw [runCmd_ok s _ _ h2]

/-- Claim C1: once the executable is resolved and the `-V` banner query
succeeds, if the version token extracted from the banner parses as a semantic
version `sv`, then resolution succeeds and appends `-o nonempty` to the
invocation string exactly when `sv` is strictly below `3.0.0` in
semantic-version order. -/
theorem legacy_flag_iff_fuse_version_lt_3 (s : Session) (t t1 : List String)
    (e : String) (sv : Semver200_version)
    (h1 : resolve_sshfs_exec s t = (.ok e, t1))
    (h2 : (s ("sudo " ++ trim_end e ++ " -V")).exit_code = 0)
    (h3 : parse_semver200 (banner_fuse_version
        ((s ("sudo " ++ trim_end e ++ " -V")).stdout ++
          (s ("sudo " ++ trim_end e ++ " -V")).stderr)) = some sv) :
    get_sshfs_exec_and_options s t =
      (.ok (trim_end e ++ " -o slave -o transform_symlinks -o allow_other" ++
        (if semver_lt sv semver_3_0_0 then " -o nonempty" else "")),
       t1 ++ ["sudo " ++ trim_end e ++ " -V"]) := by
  rw [get_ok_reduce s t t1 e h1 h2, flag_eq_of_parse_some _ sv h3]
  by_cases hlt : semver_lt sv semver_3_0_0 = true
  · simp [hlt]
  · simp [hlt]

/-- Claim C1 witness: the banner reports FUSE library version 2.9.7, which is
below 3.0.0, so `-o nonempty` is appended. -/
theorem legacy_flag_iff_fuse_version_lt_3_witness :
    get_sshfs_exec_and_options sessFuse [] =
      (.ok "/u/s -o slave -o transform_symlinks -o allow_other -o nonempty",
       ["sudo multipass-sshfs.env", "sudo which sshfs", "sudo /u/s -V"]) :=
  (legacy_flag_iff_fuse_version_lt_3 sessFuse []
    ["sudo multipass-sshfs.env", "sudo which sshfs"] "/u/s\n"
    ⟨2, 9, 7, [], []⟩ (by rfl) (by rfl) (by rfl)).trans (by rfl)

theorem drop_marker_self (m x : List Char) : drop_marker m (m ++ x) = some x := by
  induction m with
  | nil => rfl
  | cons c cs ih => simp [drop_marker, ih]

theorem dropWhile_colon_replicate (n : Nat) (tok : List Char) :
    (List.replicate n ':' ++ ' ' :: tok).dropWhile (fun c => c = ':') = ' ' :: tok := by
  induction n with
  | zero => simp [List.dropWhile]
  | succ n ih => simp [List.replicate_succ, List.dropWhile, ih]

theorem pattern_match_head (n : Nat) (tok : List Char) :
    pattern_match (fuse_version_string.data ++
      (List.replicate n ':' ++ (' ' :: tok))) = some tok := by
  unfold pattern_match
  rw [drop_marker_self]
  show (match (List.replicate n ':' ++ ' ' :: tok).dropWhile (fun c => c = ':') with
    | [] => none
    | c :: rest => if c = ' ' then some rest else none) = some tok
  rw [dropWhile_colon_replicate]
  simp

theorem split_step_none (fuel : Nat) (c : Char) (cs cur : List Char)
    (h : pattern_match (c :: cs) = none) :
    split_on_marker_aux (fuel + 1) (c :: cs) cur =
      split_on_marker_aux fuel cs (c :: cur) := by
  simp only [split_on_marker_aux, h]

theorem split_no_pattern (s : List Char) : ∀ (fuel : Nat) (cur : List Char),
    s.length < fuel →
    (∀ i, i < s.length → pattern_match (s.drop i) = none) →
    split_on_marker_aux fuel s cur = [cur.reverse ++ s] := by
  induction s with
  | nil =>
    intro fuel cur hf _
    cases fuel with
    | zero => omega
    | succ f => simp [split_on_marker_aux]
  | cons c cs ih =>
    intro fuel cur hf hnm
    cases fuel with
    | zero => simp at hf
    | succ f =>
      have h0 : pattern_match (c :: cs) = none := by simpa using hnm 0 (by simp)
      simp only [split_on_marker_aux, h0]
      have hrec := ih f (c :: cur) (by simp at hf; omega)
        (fun i hi => by simpa using hnm (i + 1) (by simp; omega))
      rw [hrec]
      simp

theorem split_skip (p : List Char) : ∀ (s : List Char) (fuel : Nat) (cur : List Char),
    p.length + s.length < fuel →
    (∀ i, i < p.length → pattern_match ((p ++ s).drop i) = none) →
    split_on_marker_aux fuel (p ++ s) cur =
      split_on_marker_aux (fuel - p.length) s (p.reverse ++ cur) := by
  induction p with
  | nil => intro s fuel cur _ _; simp
  | cons c p' ih =>
    intro s fuel cur hf hnm
    cases fuel with
    | zero => simp at hf
    | succ f =>
      have h0 : pattern_match (c :: (p' ++ s)) = none := by
        simpa using hnm 0 (by simp)
      rw [List.cons_append, split_step_none f c (p' ++ s) cur h0]
      have hrec := ih s f (c :: cur) (by simp at hf; omega)
        (fun i hi => by simpa using hnm (i + 1) (by simp; omega))
      rw [hrec]
      simp [Nat.succ_sub_succ, List.append_assoc]

theorem split_match_head (fuel : Nat) (s cur rest : List Char)
    (h : pattern_match s = some rest) (hs : s ≠ []) :
    split_on_marker_aux (fuel + 1) s cur =
      cur.reverse :: split_on_marker_aux fuel rest [] := by
  cases s with
  | nil => exact absurd rfl hs
  | cons c cs => simp only [split_on_marker_aux, h]

/-- Claim C6: for every line of the form
`pre ++ "FUSE library version" ++ (0, 1 or 2 colons) ++ " " ++ tok` — where the
split pattern matches nowhere inside `pre` (the shown marker occurrence is the
first) and nowhere inside `tok` — the parser's `tokens[1]` is exactly the
version token `tok`. -/
theorem fuse_split_extracts_version_token (pre tok : List Char) (n : Nat)
    (hn : n ≤ 2)
    (hpre : ∀ i, i < pre.length →
      pattern_match ((pre ++ (fuse_version_string.data ++
        (List.replicate n ':' ++ (' ' :: tok)))).drop i) = none)
    (htok : ∀ i, i < tok.length → pattern_match (tok.drop i) = none) :
    (mp_split (String.mk (pre ++ (fuse_version_string.data ++
      (List.replicate n ':' ++ (' ' :: tok)))))).getD 1 "" = String.mk tok := by
  have hfuse : fuse_version_string.data.length = 20 := rfl
  have hrestlen : (fuse_version_string.data ++
      (List.replicate n ':' ++ (' ' :: tok))).length = 20 + (n + (tok.length + 1)) := by
    simp [List.length_append, List.length_replicate, hfuse]
  unfold mp_split
  show ((split_on_marker_aux
      ((pre ++ (fuse_version_string.data ++ (List.replicate n ':' ++ (' ' :: tok)))).length + 1)
      (pre ++ (fuse_version_string.data ++ (List.replicate n ':' ++ (' ' :: tok))))
      []).map String.mk).getD 1 "" = String.mk tok
  rw [split_skip pre _ _ [] (by simp [List.length_append]) hpre]
  have hlen : (pre ++ (fuse_version_string.data ++
      (List.replicate n ':' ++ (' ' :: tok)))).length + 1 - pre.length =
      (fuse_version_string.data ++ (List.replicate n ':' ++ (' ' :: tok))).length + 1 := by
    rw [List.length_append, Nat.add_assoc, Nat.add_sub_cancel_left]
  rw [hlen]
  have hne : fuse_version_string.data ++ (List.replicate n ':' ++ (' ' :: tok)) ≠ [] := by
    intro hcon
    have hl := congrArg List.length hcon
    rw [hrestlen] at hl
    simp at hl
  rw [split_match_head _ _ _ tok (pattern_match_head n tok) hne]
  rw [split_no_pattern tok _ [] (by rw [hrestlen]; omega) htok]
  rfl

/-- Claim C6 witness: the line `"xy FUSE library version:: 2.9.7"` (two
colons) splits so that `tokens[1]` is `"2.9.7"`. -/
theorem fuse_split_extracts_version_token_witness :
    (mp_split (String.mk ("xy ".data ++ (fuse_version_string.data ++
      (List.replicate 2 ':' ++ (' ' :: "2.9.7".data)))))).getD 1 "" =
      String.mk "2.9.7".data :=
  fuse_split_extracts_version_token "xy ".data "2.9.7".data 2
    (by decide) (by decide) (by decide)

/-- Claim C8 witness: scenario D session — `make_sftp_server` fails with
`SSHFSMissingError`, and construction propagates exactly that error with no
lifecycle state (no background thread). -/
theorem construction_atomic_witness :
    SshfsMount_construct sessMissing "/a" "/b" [] [] [] =
      (.error .SSHFSMissingError,
       ["sudo multipass-sshfs.env", "sudo which sshfs"]) :=
  (construction_atomic sessMissing "/a" "/b" [] [] []).1
    .SSHFSMissingError ["sudo multipass-sshfs.env", "sudo which sshfs"] (by rfl)
